import Mathlib

/- Verification of readthedocs/builds/models.py (Version, Build,
BuildCommandResult) against its natural-language specification.

Python strings are modelled as lists of characters (`Str`), Python `None`
as `Option.none`, and datetimes as integer POSIX seconds.  Each definition
below is a direct translation of the corresponding Python source. -/

namespace RTD

/-- Python strings, modelled as lists of characters. -/
abbrev Str := List Char

/-- Is `ns` a prefix of the second list?  Helper for `pyIn`. -/
def prefixOfChars : Str → Str → Bool
  | [], _ => true
  | _ :: _, [] => false
  | a :: as, b :: bs => a = b && prefixOfChars as bs

/-- Python's substring test `needle in hay` on strings. -/
def pyIn : Str → Str → Bool
  | ns, [] => ns.isEmpty
  | ns, h :: t => prefixOfChars ns (h :: t) || pyIn ns t

/-- Python `slug.replace('-', '/')`: single-character replacement is a map. -/
def dashToSlash (s : Str) : Str := s.map (fun c => if c = '-' then '/' else c)

/-- Python `repo.rstrip('/')`: drop every trailing slash. -/
def rstripSlash (s : Str) : Str := (s.reverse.dropWhile (fun c => c = '/')).reverse

/-- Modelled from the spec: constant `LATEST` of `readthedocs.builds.constants`
(the module is not among the sources); the spec fixes the synthetic slug as
"latest". -/
def LATEST : Str := ("latest").toList

/-- Modelled from the spec: constant `STABLE` of `readthedocs.builds.constants`
(the module is not among the sources); the spec fixes the synthetic slug as
"stable". -/
def STABLE : Str := ("stable").toList

/-- Modelled from the spec: constant `BUILD_STATE_FINISHED` of
`readthedocs.builds.constants` (the module is not among the sources); the spec
and the API tests fix the terminal state string as "finished". -/
def BUILD_STATE_FINISHED : Str := ("finished").toList

/-- The slice of `readthedocs.projects.models.Project` that the Version methods
read.  `default_branch` uses the empty string for an unset branch, matching the
Python truthiness test `if self.project.default_branch`.  `fallback_branch`
models the external collaborator call `self.project.vcs_repo().fallback_branch`. -/
structure Project where
  repo : Str
  default_branch : Str
  fallback_branch : Str

/-- The fields of `Version` (models.py lines 32-68) that its resolution methods
read.  The remaining columns (flags, privacy, verbose name) are not consulted
by the functions under verification. -/
structure Version where
  project : Project
  identifier : Str
  slug : Str

/-- `Version.remote_slug` (models.py lines 125-133). -/
def Version.remote_slug (v : Version) : Str :=
  if v.slug = LATEST then
    if v.project.default_branch ≠ [] then v.project.default_branch
    else v.project.fallback_branch
  else v.slug

/-- The un-slugify correction at models.py lines 226-228: if replacing `-` by
`/` in `slug` yields a substring of `identifier`, use the replaced form. -/
def unslugify (slug identifier : Str) : Str :=
  if pyIn (dashToSlash slug) identifier = true then dashToSlash slug else slug

/-- The candidate slug computed by `get_vcs_slug` before the un-slugify
correction (models.py lines 213-222): the local variable `slug` on the
non-stable paths. -/
def Version.candidate (v : Version) : Str :=
  if v.slug = LATEST then
    if v.project.default_branch ≠ [] then v.project.default_branch
    else v.project.fallback_branch
  else v.slug

/-- `Version.get_vcs_slug` (models.py lines 212-228).  The `stable` branch
returns the identifier before the correction runs (early `return`). -/
def Version.get_vcs_slug (v : Version) : Str :=
  if v.slug = LATEST then
    unslugify
      (if v.project.default_branch ≠ [] then v.project.default_branch
       else v.project.fallback_branch)
      v.identifier
  else if v.slug = STABLE then
    v.identifier
  else
    unslugify v.slug v.identifier

/-- One token of the regular expressions used by the source-link resolvers:
a literal character, the wildcard `.` (any character except newline), or the
greedy captured group `(.+)`. -/
inductive RTok
  | lit (c : Char)
  | dot
  | grp
deriving DecidableEq

/-- The literal characters of a pattern fragment as tokens. -/
def litToks (s : String) : List RTok := s.toList.map RTok.lit

/-- The backtracking matcher, structurally recursive on a fuel argument so
that the kernel can evaluate it.  With accumulator `none` it performs the
anchored match of the token list against the front of `s`, Python semantics;
on success it returns the captured groups in order (the rest of `s` may remain
unconsumed, as `re.search` does not anchor the end).  With accumulator
`some acc` it is the greedy continuation of a `(.+)` group that has already
captured `acc`: it first tries to extend the group by one more character and
only on failure closes it and matches the remaining tokens — exactly the
backtracking order of Python's engine.  Every recursive call strictly
decreases `2 * s.length + 2 * ps.length` plus one for an open group, so fuel
`2 * s.length + 2 * ps.length + 1` is never exhausted. -/
def reRun : Nat → Option Str → List RTok → Str → Option (List Str)
  | 0, _, _, _ => none
  | _ + 1, none, [], _ => some []
  | n + 1, none, RTok.lit c :: ps, x :: xs =>
    if x = c then reRun n none ps xs else none
  | n + 1, none, RTok.dot :: ps, x :: xs =>
    if x ≠ '\n' then reRun n none ps xs else none
  | n + 1, none, RTok.grp :: ps, x :: xs =>
    if x ≠ '\n' then reRun n (some [x]) ps xs else none
  | _ + 1, none, _ :: _, [] => none
  | n + 1, some acc, ps, [] => (reRun n none ps []).map (fun gs => acc :: gs)
  | n + 1, some acc, ps, y :: ys =>
    if y ≠ '\n' then
      match reRun n (some (acc ++ [y])) ps ys with
      | some gs => some gs
      | none => (reRun n none ps (y :: ys)).map (fun gs => acc :: gs)
    else
      (reRun n none ps (y :: ys)).map (fun gs => acc :: gs)

/-- Anchored match of a token list at the front of `s`, with sufficient
fuel. -/
def reMatch (ps : List RTok) (s : Str) : Option (List Str) :=
  reRun (2 * s.length + 2 * ps.length + 1) none ps s

/-- Python `re.search`: try the anchored match at every start position, from
the leftmost one. -/
def reSearch (p : List RTok) : Str → Option (List Str)
  | [] => reMatch p []
  | x :: xs =>
    match reMatch p (x :: xs) with
    | some gs => some gs
    | none => reSearch p xs

/-- The `for regex in REGEXS ... break / else return ''` loop shared by both
resolvers: try the patterns in their listed order and return the two captured
groups of the first one that matches `re.search`.  (All patterns under
verification have exactly two groups; a match with a different group count
would fail Python's tuple unpacking and is mapped to `none`.) -/
def firstMatch : List (List RTok) → Str → Option (Str × Str)
  | [], _ => none
  | p :: ps, s =>
    match reSearch p s with
    | some (user :: repo :: _) => some (user, repo)
    | some _ => none
    | none => firstMatch ps s

/-- `GITHUB_REGEXS` (models.py lines 231-235).  Unescaped dots are wildcard
tokens; the first pattern's suffix is the escaped literal ".git". -/
def GITHUB_REGEXS : List (List RTok) :=
  [litToks ("github") ++ [RTok.dot] ++ litToks ("com/") ++
     [RTok.grp, RTok.lit '/', RTok.grp] ++ litToks (".git"),
   litToks ("github") ++ [RTok.dot] ++ litToks ("com/") ++
     [RTok.grp, RTok.lit '/', RTok.grp],
   litToks ("github") ++ [RTok.dot] ++ litToks ("com:") ++
     [RTok.grp, RTok.lit '/', RTok.grp, RTok.dot] ++ litToks ("git")]

/-- `BB_REGEXS` (models.py lines 276-280).  Every dot is unescaped, hence a
wildcard token. -/
def BB_REGEXS : List (List RTok) :=
  [litToks ("bitbucket") ++ [RTok.dot] ++ litToks ("org/") ++
     [RTok.grp, RTok.lit '/', RTok.grp, RTok.dot] ++ litToks ("git"),
   litToks ("bitbucket") ++ [RTok.dot] ++ litToks ("org/") ++
     [RTok.grp, RTok.lit '/', RTok.grp, RTok.lit '/'],
   litToks ("bitbucket") ++ [RTok.dot] ++ litToks ("org/") ++
     [RTok.grp, RTok.lit '/', RTok.grp]]

/-- The hostname token tested by `'github' not in repo_url`. -/
def ghToken : Str := ("github").toList

/-- The hostname token tested by `'bitbucket' not in repo_url`. -/
def bbToken : Str := ("bitbucket").toList

/-- The first docroot mutation (models.py lines 246-247): prepend '/' when the
first character is not '/'. -/
def prependSlash (d : Str) : Str :=
  if d.head? ≠ some '/' then '/' :: d else d

/-- The second docroot mutation (models.py lines 248-249): append '/' when the
last character (of the possibly already prepended string) is not '/'. -/
def appendSlash (d : Str) : Str :=
  if d.getLast? ≠ some '/' then d ++ ['/'] else d

/-- The two sequential docroot mutations of `get_github_url`. -/
def normalize_docroot (d : Str) : Str := appendSlash (prependSlash d)

/-- The `action` to path-segment mapping (models.py lines 251-254): the local
variable `action_string`, which is left unassigned for unrecognized actions
(`none` models the unbound local). -/
def ghActionString (action : Str) : Option Str :=
  if action = ("view").toList then some (("blob").toList)
  else if action = ("edit").toList then some (("edit").toList)
  else none

/-- `GITHUB_URL.format(...)` (models.py lines 236-237). -/
def ghUrlFormat (user repo action version docroot path source_suffix : Str) : Str :=
  ("https://github.com/").toList ++ user ++ ("/").toList ++ repo ++
    ("/").toList ++ action ++ ("/").toList ++ version ++ docroot ++ path ++
    source_suffix

/-- `BB_URL.format(...)` (models.py line 281). -/
def bbUrlFormat (user repo version docroot path source_suffix : Str) : Str :=
  ("https://bitbucket.org/").toList ++ user ++ ("/").toList ++ repo ++
    ("/src/").toList ++ version ++ docroot ++ path ++ source_suffix

/-- `Version.get_github_url` (models.py lines 230-273).  The value is the
returned string, or `Except.error ()` for the `UnboundLocalError` Python
raises at the `.format` call when `action` is neither "view" nor "edit" (the
error can only surface after the pattern loop found a match, since a failed
loop returns '' first). -/
def Version.get_github_url (v : Version)
    (docroot filename source_suffix action : Str) : Except Unit Str :=
  if pyIn ghToken v.project.repo = false then Except.ok []
  else if docroot = [] then Except.ok []
  else
    match firstMatch GITHUB_REGEXS v.project.repo with
    | none => Except.ok []
    | some (user, repo) =>
      match ghActionString action with
      | none => Except.error ()
      | some act =>
        Except.ok (ghUrlFormat user (rstripSlash repo) act v.remote_slug
          (normalize_docroot docroot) filename source_suffix)

/-- `Version.get_bitbucket_url` (models.py lines 275-305).  Note that, unlike
the GitHub resolver, it substitutes `docroot` exactly as given. -/
def Version.get_bitbucket_url (v : Version)
    (docroot filename source_suffix : Str) : Str :=
  if pyIn bbToken v.project.repo = false then []
  else if docroot = [] then []
  else
    match firstMatch BB_REGEXS v.project.repo with
    | none => []
    | some (user, repo) =>
      bbUrlFormat user (rstripSlash repo) v.remote_slug docroot filename
        source_suffix

/-- The `Build` model (models.py lines 324-373); the `date` column
(auto-now-add timestamp) is omitted as no verified claim reads it. -/
structure Build where
  project : Str
  version : Option Str
  type : Str
  state : Str
  success : Bool
  setup : Option Str
  setup_error : Option Str
  output : Str
  error : Str
  exit_code : Option Int
  commit : Option Str
  length : Option Int
  builder : Option Str

/-- Creation of a `Build` row with no explicit field values: every column takes
the default declared on the model, in particular `state` defaults to the string
'finished' (models.py lines 331-332) and `success` to `True`. -/
def Build.new (project : Str) (version : Option Str) : Build :=
  { project := project
    version := version
    type := ("html").toList
    state := BUILD_STATE_FINISHED
    success := true
    setup := none
    setup_error := none
    output := []
    error := []
    exit_code := none
    commit := none
    length := none
    builder := none }

/-- `Build.finished` (models.py lines 370-373). -/
def Build.finished (b : Build) : Bool := b.state = BUILD_STATE_FINISHED

/-- A state update as the code performs it: `Build.state` is a plain writable
column and the update path assigns it directly; no validation exists anywhere
in the model, so the result is always a success, never an error. -/
def Build.update_state (b : Build) (s : Str) : Except Unit Build :=
  Except.ok { b with state := s }

/-- The `BuildCommandResult` model (models.py lines 396-423).  Timestamps are
integer POSIX seconds; `none` models an unset value. -/
structure BuildCommandResult where
  build : Nat
  command : Str
  description : Option Str
  output : Option Str
  exit_code : Int
  start_time : Option Int
  end_time : Option Int

/-- `BuildCommandResultMixin.successful` (models.py lines 383-386). -/
def BuildCommandResult.successful (c : BuildCommandResult) : Bool :=
  c.exit_code = 0

/-- `BuildCommandResultMixin.failed` (models.py lines 388-393). -/
def BuildCommandResult.failed (c : BuildCommandResult) : Bool :=
  !c.successful

/-- `BuildCommandResult.run_time` (models.py lines 418-423).  Python computes
`(end_time - start_time).seconds`: the `seconds` field of a normalized
`timedelta` is the remainder within the day component, i.e. the Euclidean
remainder of the total seconds modulo 86400 (whole days, including a negative
day count produced by a negative difference, are discarded). -/
def BuildCommandResult.run_time (c : BuildCommandResult) : Option Int :=
  match c.start_time, c.end_time with
  | some s, some e => some ((e - s).emod 86400)
  | _, _ => none

/-- C1 (amended): when both timestamps are present and `start_time` is strictly
later than `end_time`, `run_time` is not undefined: it is defined and equals
the `seconds` field of the normalized negative timedelta, the Euclidean
remainder of the difference modulo 86400 — a value that is never negative and
always below 86400. -/
theorem C1_clock_skew_amended (c : BuildCommandResult) (s e : Int)
    (hs : c.start_time = some s) (he : c.end_time = some e) (hlt : e < s) :
    c.run_time = some ((e - s).emod 86400) ∧
    e - s < 0 ∧
    0 ≤ (e - s).emod 86400 ∧ (e - s).emod 86400 < 86400 := by
  refine ⟨?_, by omega, Int.emod_nonneg _ (by norm_num),
    Int.emod_lt_of_pos _ (by norm_num)⟩
  simp [BuildCommandResult.run_time, hs, he]

/-- C1 witness: a command that started at second 10 and ended at second 3. -/
theorem C1_clock_skew_witness :
    (⟨1, [], none, none, 0, some 10, some 3⟩ : BuildCommandResult).run_time =
      some ((3 - 10 : Int).emod 86400) ∧
    (3 : Int) - 10 < 0 ∧
    0 ≤ ((3 : Int) - 10).emod 86400 ∧ ((3 : Int) - 10).emod 86400 < 86400 :=
  C1_clock_skew_amended ⟨1, [], none, none, 0, some 10, some 3⟩ 10 3 rfl rfl
    (by decide)

/-- C1 counterexample: a command with `start_time = 5` and `end_time = 0`
(5 seconds of clock skew) has `run_time = 86395`, a defined numeric value —
the claim states that `run_time` is undefined (absent) for every such
command. -/
theorem C1_clock_skew_counterexample :
    (⟨1, [], none, none, 0, some 5, some 0⟩ : BuildCommandResult).run_time =
      some 86395 ∧
    (⟨1, [], none, none, 0, some 5, some 0⟩ : BuildCommandResult).run_time ≠
      none := by
  constructor
  · decide
  · decide

/-- C2 (amended): the Build record performs no transition validation at all:
updating `state` is a plain field assignment that succeeds for every current
state and every requested state — backward moves such as building → cloning
are accepted exactly like the direct jump of any non-terminal state to
finished; no invalid-transition error exists in the code. -/
theorem C2_transitions_amended (b : Build) (s : Str) :
    b.update_state s = Except.ok { b with state := s } := rfl

/-- C2 counterexample: a build in state "building" asked to move back to
"cloning" is not rejected: the update succeeds and the state becomes
"cloning", while the claim requires an invalid-transition error. -/
theorem C2_transitions_counterexample :
    ({ Build.new ("p").toList none with state := ("building").toList }
        : Build).update_state (("cloning").toList) =
      Except.ok { Build.new ("p").toList none with state := ("cloning").toList } := rfl

/-- C3 (amended): a Build created with no explicitly supplied state has state
"finished" (the model default at models.py lines 331-332), and consequently
its derived `finished` property is true at creation, not false. -/
theorem C3_initial_state_amended (project : Str) (version : Option Str) :
    (Build.new project version).state = BUILD_STATE_FINISHED ∧
    (Build.new project version).finished = true := by
  constructor
  · rfl
  · simp [Build.finished, Build.new]

/-- C3 counterexample: a freshly created Build has state "finished", which is
not "triggered", and its `finished` property is already true — the claim
states the initial state is "triggered" with `finished` false. -/
theorem C3_initial_state_counterexample :
    (Build.new ("p").toList none).state = ("finished").toList ∧
    (Build.new ("p").toList none).state ≠ ("triggered").toList ∧
    (Build.new ("p").toList none).finished = true := by
  refine ⟨rfl, by decide, by decide⟩

/-- `prependSlash` always yields a string whose first character is '/'. -/
theorem prependSlash_shape (d : Str) : ∃ t, prependSlash d = '/' :: t := by
  unfold prependSlash
  match d with
  | [] => exact ⟨[], by simp⟩
  | c :: t =>
    by_cases hc : c = '/'
    · subst hc; exact ⟨t, by simp⟩
    · exact ⟨c :: t, by simp [hc]⟩

/-- The normalized docroot begins with '/'. -/
theorem norm_head (d : Str) : (normalize_docroot d).head? = some '/' := by
  obtain ⟨t, ht⟩ := prependSlash_shape d
  unfold normalize_docroot appendSlash
  rw [ht]
  split
  · rw [List.cons_append]; rfl
  · rfl

/-- The normalized docroot ends with '/'. -/
theorem norm_last (d : Str) : (normalize_docroot d).getLast? = some '/' := by
  unfold normalize_docroot appendSlash
  split
  · exact List.getLast?_concat _
  · next h => exact not_ne_iff.mp h

/-- The normalized docroot is never empty. -/
theorem norm_ne_nil (d : Str) : normalize_docroot d ≠ [] := by
  intro he
  have h := norm_head d
  rw [he] at h
  simp at h

/-- Normalization fixes any string that already begins and ends with '/'. -/
theorem norm_fixed (e : Str) (h1 : e.head? = some '/')
    (h2 : e.getLast? = some '/') : normalize_docroot e = e := by
  unfold normalize_docroot prependSlash appendSlash
  simp [h1, h2]

/-- Docroot normalization is idempotent. -/
theorem norm_idem (d : Str) :
    normalize_docroot (normalize_docroot d) = normalize_docroot d :=
  norm_fixed _ (norm_head d) (norm_last d)

/-- C4 (amended): for every non-empty docroot, the GitHub resolver substitutes
the normalized docroot — it begins and ends with '/', and pre-normalizing the
argument does not change the result — but the Bitbucket resolver performs no
normalization: it substitutes the docroot exactly as given into its URL
template. -/
theorem C4_docroot_normalization_amended (docroot : Str) (hd : docroot ≠ []) :
    (normalize_docroot docroot).head? = some '/' ∧
    (normalize_docroot docroot).getLast? = some '/' ∧
    (∀ (v : Version) (filename source_suffix action : Str),
      v.get_github_url docroot filename source_suffix action =
        v.get_github_url (normalize_docroot docroot) filename source_suffix
          action) ∧
    (∀ (v : Version) (filename source_suffix user repo : Str),
      pyIn bbToken v.project.repo = true →
      firstMatch BB_REGEXS v.project.repo = some (user, repo) →
      v.get_bitbucket_url docroot filename source_suffix =
        bbUrlFormat user (rstripSlash repo) v.remote_slug docroot filename
          source_suffix) := by
  refine ⟨norm_head docroot, norm_last docroot, ?_, ?_⟩
  · intro v filename source_suffix action
    simp only [Version.get_github_url, hd, norm_ne_nil, norm_idem]
  · intro v filename source_suffix user repo hbb hm
    simp [Version.get_bitbucket_url, hbb, hd, hm]

/-- C4 witness: docroot "source" normalizes to "/source/", the GitHub resolver
agrees on the raw and normalized docroot, and the Bitbucket resolver
substitutes "source" as given. -/
theorem C4_docroot_normalization_witness :
    (normalize_docroot (("source").toList)).head? = some '/' ∧
    (normalize_docroot (("source").toList)).getLast? = some '/' ∧
    (⟨⟨("https://github.com/acme/docs.git").toList, [], ("master").toList⟩,
        ("deadbeef").toList, ("main").toList⟩ : Version).get_github_url
        (("source").toList) (("index").toList) ((".rst").toList)
        (("view").toList) =
      (⟨⟨("https://github.com/acme/docs.git").toList, [], ("master").toList⟩,
          ("deadbeef").toList, ("main").toList⟩ : Version).get_github_url
        (normalize_docroot (("source").toList)) (("index").toList)
        ((".rst").toList) (("view").toList) ∧
    (⟨⟨("https://bitbucket.org/acme/docs.git").toList, [], ("master").toList⟩,
        ("deadbeef").toList, ("main").toList⟩ : Version).get_bitbucket_url
        (("source").toList) (("index").toList) ((".rst").toList) =
      bbUrlFormat (("acme").toList) (rstripSlash (("docs").toList))
        (⟨⟨("https://bitbucket.org/acme/docs.git").toList, [],
            ("master").toList⟩, ("deadbeef").toList,
            ("main").toList⟩ : Version).remote_slug
        (("source").toList) (("index").toList) ((".rst").toList) :=
  ⟨(C4_docroot_normalization_amended (("source").toList) (by decide)).1,
   (C4_docroot_normalization_amended (("source").toList) (by decide)).2.1,
   (C4_docroot_normalization_amended (("source").toList) (by decide)).2.2.1 _
     _ _ _,
   (C4_docroot_normalization_amended (("source").toList) (by decide)).2.2.2 _
     _ _ _ _ (by decide) (by decide)⟩

/-- C4 counterexample: the Bitbucket resolver, given the non-empty docroot
"source", produces a URL in which the docroot is not surrounded by slashes
("...src/mainsourceindex.rst"), so the substituted docroot was not normalized
to begin and end with '/'. -/
theorem C4_docroot_normalization_counterexample :
    (⟨⟨("https://bitbucket.org/acme/docs.git").toList, [], ("master").toList⟩,
        ("deadbeef").toList, ("main").toList⟩ : Version).get_bitbucket_url
        (("source").toList) (("index").toList) ((".rst").toList) =
      ("https://bitbucket.org/acme/docs/src/mainsourceindex.rst").toList ∧
    pyIn (("/source/").toList)
        ((⟨⟨("https://bitbucket.org/acme/docs.git").toList, [],
            ("master").toList⟩, ("deadbeef").toList,
            ("main").toList⟩ : Version).get_bitbucket_url
          (("source").toList) (("index").toList) ((".rst").toList)) =
      false := by
  constructor
  · decide
  · decide

/-- C8: both source-link resolvers fail soft, returning the empty string, when
the repository URL lacks the provider's hostname token, when the docroot is
empty, or when none of the provider's ordered patterns matches; and the
pattern loop returns the groups of the first matching pattern. -/
theorem C8_fail_soft (v : Version) (docroot filename source_suffix action : Str) :
    (pyIn ghToken v.project.repo = false →
      v.get_github_url docroot filename source_suffix action = Except.ok []) ∧
    (docroot = [] →
      v.get_github_url docroot filename source_suffix action = Except.ok []) ∧
    (firstMatch GITHUB_REGEXS v.project.repo = none →
      v.get_github_url docroot filename source_suffix action = Except.ok []) ∧
    (pyIn bbToken v.project.repo = false →
      v.get_bitbucket_url docroot filename source_suffix = []) ∧
    (docroot = [] → v.get_bitbucket_url docroot filename source_suffix = []) ∧
    (firstMatch BB_REGEXS v.project.repo = none →
      v.get_bitbucket_url docroot filename source_suffix = []) ∧
    (∀ (p : List RTok) (ps : List (List RTok)) (s user repo : Str)
        (rest : List Str),
      reSearch p s = some (user :: repo :: rest) →
      firstMatch (p :: ps) s = some (user, repo)) := by
  refine ⟨fun h => ?_, fun h => ?_, fun h => ?_, fun h => ?_, fun h => ?_,
    fun h => ?_, fun p ps s user repo rest h => ?_⟩
  · simp [Version.get_github_url, h]
  · simp [Version.get_github_url, h]
  · unfold Version.get_github_url
    split
    · rfl
    · split
      · rfl
      · rw [h]
  · simp [Version.get_bitbucket_url, h]
  · simp [Version.get_bitbucket_url, h]
  · unfold Version.get_bitbucket_url
    split
    · rfl
    · split
      · rfl
      · rw [h]
  · simp [firstMatch, h]

/-- C8 witness: the six soft failures and the first-match-wins rule at
concrete inputs: a GitLab repo URL for the missing-hostname cases, an empty
docroot, unmatched repo URLs that still contain the token, and the first
GitHub pattern winning on a ".git" URL. -/
theorem C8_fail_soft_witness :
    (⟨⟨("https://gitlab.com/a/b").toList, [], ("master").toList⟩,
        ("x").toList, ("main").toList⟩ : Version).get_github_url
        (("docs").toList) (("index").toList) ((".rst").toList)
        (("view").toList) = Except.ok [] ∧
    (⟨⟨("https://github.com/acme/docs.git").toList, [], ("master").toList⟩,
        ("x").toList, ("main").toList⟩ : Version).get_github_url []
        (("index").toList) ((".rst").toList) (("view").toList) =
      Except.ok [] ∧
    (⟨⟨("https://github.example/acme").toList, [], ("master").toList⟩,
        ("x").toList, ("main").toList⟩ : Version).get_github_url
        (("docs").toList) (("index").toList) ((".rst").toList)
        (("view").toList) = Except.ok [] ∧
    (⟨⟨("https://gitlab.com/a/b").toList, [], ("master").toList⟩,
        ("x").toList, ("main").toList⟩ : Version).get_bitbucket_url
        (("docs").toList) (("index").toList) ((".rst").toList) = [] ∧
    (⟨⟨("https://bitbucket.org/acme/docs.git").toList, [],
        ("master").toList⟩, ("x").toList,
        ("main").toList⟩ : Version).get_bitbucket_url []
        (("index").toList) ((".rst").toList) = [] ∧
    (⟨⟨("bitbucket.orgX/a/b").toList, [], ("master").toList⟩, ("x").toList,
        ("main").toList⟩ : Version).get_bitbucket_url (("docs").toList)
        (("index").toList) ((".rst").toList) = [] ∧
    firstMatch GITHUB_REGEXS (("https://github.com/acme/docs.git").toList) =
      some ((("acme").toList), (("docs").toList)) :=
  ⟨(C8_fail_soft (⟨⟨("https://gitlab.com/a/b").toList, [], ("master").toList⟩,
      ("x").toList, ("main").toList⟩ : Version) (("docs").toList)
      (("index").toList) ((".rst").toList) (("view").toList)).1 (by decide),
   (C8_fail_soft (⟨⟨("https://github.com/acme/docs.git").toList, [],
      ("master").toList⟩, ("x").toList, ("main").toList⟩ : Version) []
      (("index").toList) ((".rst").toList) (("view").toList)).2.1 rfl,
   (C8_fail_soft (⟨⟨("https://github.example/acme").toList, [],
      ("master").toList⟩, ("x").toList, ("main").toList⟩ : Version)
      (("docs").toList) (("index").toList) ((".rst").toList)
      (("view").toList)).2.2.1 (by decide),
   (C8_fail_soft (⟨⟨("https://gitlab.com/a/b").toList, [], ("master").toList⟩,
      ("x").toList, ("main").toList⟩ : Version) (("docs").toList)
      (("index").toList) ((".rst").toList) (("view").toList)).2.2.2.1
      (by decide),
   (C8_fail_soft (⟨⟨("https://bitbucket.org/acme/docs.git").toList, [],
      ("master").toList⟩, ("x").toList, ("main").toList⟩ : Version) []
      (("index").toList) ((".rst").toList) (("view").toList)).2.2.2.2.1 rfl,
   (C8_fail_soft (⟨⟨("bitbucket.orgX/a/b").toList, [], ("master").toList⟩,
      ("x").toList, ("main").toList⟩ : Version) (("docs").toList)
      (("index").toList) ((".rst").toList) (("view").toList)).2.2.2.2.2.1
      (by decide),
   (C8_fail_soft (⟨⟨[], [], []⟩, [], []⟩ : Version) [] [] [] []).2.2.2.2.2.2
     (litToks ("github") ++ [RTok.dot] ++ litToks ("com/") ++
       [RTok.grp, RTok.lit '/', RTok.grp] ++ litToks (".git"))
     [litToks ("github") ++ [RTok.dot] ++ litToks ("com/") ++
       [RTok.grp, RTok.lit '/', RTok.grp],
      litToks ("github") ++ [RTok.dot] ++ litToks ("com:") ++
       [RTok.grp, RTok.lit '/', RTok.grp, RTok.dot] ++ litToks ("git")]
     (("https://github.com/acme/docs.git").toList) (("acme").toList)
     (("docs").toList) [] (by decide)⟩

/-- C10: with a repository URL that contains "github" and matches one of the
GitHub patterns and a non-empty docroot, any action other than "view" and
"edit" makes `get_github_url` signal an error (the unbound `action_string`
local fails at the format call) rather than defaulting to the view segment or
returning a URL. -/
theorem C10_invalid_action_error (v : Version)
    (docroot filename source_suffix action : Str)
    (ha1 : action ≠ ("view").toList) (ha2 : action ≠ ("edit").toList)
    (hg : pyIn ghToken v.project.repo = true) (hd : docroot ≠ [])
    (user repo : Str)
    (hm : firstMatch GITHUB_REGEXS v.project.repo = some (user, repo)) :
    v.get_github_url docroot filename source_suffix action =
      Except.error () := by
  have hact : ghActionString action = none := by
    unfold ghActionString
    rw [if_neg ha1, if_neg ha2]
  simp [Version.get_github_url, hg, hd, hm, hact]

/-- C10 witness: action "delete" on a well-formed GitHub repository URL with a
non-empty docroot yields the error, not a URL. -/
theorem C10_invalid_action_witness :
    (⟨⟨("https://github.com/acme/docs.git").toList, [], ("master").toList⟩,
        ("x").toList, ("main").toList⟩ : Version).get_github_url
        (("docs").toList) (("index").toList) ((".rst").toList)
        (("delete").toList) = Except.error () :=
  C10_invalid_action_error _ _ _ _ _ (by decide) (by decide) (by decide)
    (by decide) (("acme").toList) (("docs").toList) (by decide)

/-- On every path that does not take the stable early return, `get_vcs_slug`
is the un-slugify correction applied to the candidate slug. -/
theorem get_vcs_slug_of_not_stable (v : Version) (hst : v.slug ≠ STABLE) :
    v.get_vcs_slug = unslugify v.candidate v.identifier := by
  by_cases hl : v.slug = LATEST
  · simp [Version.get_vcs_slug, Version.candidate, hl]
  · simp [Version.get_vcs_slug, Version.candidate, hl, hst]

/-- C5 (amended): when the resolved candidate slug, after replacing every '-'
with '/', is a substring of the version's identifier, `get_vcs_slug` returns
that de-slugified form.  The particular example of the claim does not satisfy
this premise: for slug "feature-cool-thing" the replacement yields
"feature/cool/thing" (every dash is replaced), which is not a substring of
the identifier "feature/cool-thing", so that version resolves to its slug
unchanged; an instance that does fire is identifier "feature/cool" with slug
"feature-cool". -/
theorem C5_unslugify_correction (v : Version) (hst : v.slug ≠ STABLE)
    (hc : pyIn (dashToSlash v.candidate) v.identifier = true) :
    v.get_vcs_slug = dashToSlash v.candidate := by
  rw [get_vcs_slug_of_not_stable v hst]
  simp [unslugify, hc]

/-- C5 witness: identifier "feature/cool" with slug "feature-cool" resolves to
the ref "feature/cool". -/
theorem C5_unslugify_witness :
    (⟨⟨[], ("main").toList, ("master").toList⟩, ("feature/cool").toList,
        ("feature-cool").toList⟩ : Version).get_vcs_slug =
      ("feature/cool").toList :=
  (C5_unslugify_correction _ (by decide) (by decide)).trans (by decide)

/-- C5 counterexample: with identifier "feature/cool-thing" and slug
"feature-cool-thing", replacing every '-' with '/' gives "feature/cool/thing",
not a substring of the identifier, so `get_vcs_slug` returns the slug
"feature-cool-thing" — not "feature/cool-thing" as the claim states. -/
theorem C5_unslugify_counterexample :
    (⟨⟨[], ("main").toList, ("master").toList⟩, ("feature/cool-thing").toList,
        ("feature-cool-thing").toList⟩ : Version).get_vcs_slug =
      ("feature-cool-thing").toList ∧
    (⟨⟨[], ("main").toList, ("master").toList⟩, ("feature/cool-thing").toList,
        ("feature-cool-thing").toList⟩ : Version).get_vcs_slug ≠
      ("feature/cool-thing").toList := by
  constructor
  · decide
  · decide

/-- C6: for a version whose slug is "stable", `get_vcs_slug` returns the pinned
identifier, whatever the project's default branch and fallback branch are, and
without applying the un-slugify correction (the identifier is returned
verbatim). -/
theorem C6_stable_pinned (v : Version) (h : v.slug = STABLE) :
    v.get_vcs_slug = v.identifier := by
  have hne : STABLE ≠ LATEST := by decide
  simp [Version.get_vcs_slug, h, hne]

/-- C6 witness: the same stable version under two different default branches
resolves to the same pinned identifier both times. -/
theorem C6_stable_pinned_witness :
    (⟨⟨[], ("main").toList, ("master").toList⟩, ("abc123").toList,
        ("stable").toList⟩ : Version).get_vcs_slug = ("abc123").toList ∧
    (⟨⟨[], ("develop").toList, ("default").toList⟩, ("abc123").toList,
        ("stable").toList⟩ : Version).get_vcs_slug = ("abc123").toList :=
  ⟨C6_stable_pinned _ (by decide), C6_stable_pinned _ (by decide)⟩

/-- C7: `remote_slug` returns the project's default branch when the slug is
"latest" and the default branch is set, the backend fallback branch when the
slug is "latest" and the default branch is unset, and the version's own slug
otherwise — in particular a "stable" version yields the literal slug
"stable". -/
theorem C7_remote_slug_cases (v : Version) :
    (v.slug = LATEST → v.project.default_branch ≠ [] →
      v.remote_slug = v.project.default_branch) ∧
    (v.slug = LATEST → v.project.default_branch = [] →
      v.remote_slug = v.project.fallback_branch) ∧
    (v.slug ≠ LATEST → v.remote_slug = v.slug) := by
  refine ⟨fun h1 h2 => ?_, fun h1 h2 => ?_, fun h1 => ?_⟩
  · simp [Version.remote_slug, h1, h2]
  · simp [Version.remote_slug, h1, h2]
  · simp [Version.remote_slug, h1]

/-- C7 witness: the three cases at concrete versions; the third is a "stable"
version, for which `remote_slug` is the string "stable", not the pinned
identifier. -/
theorem C7_remote_slug_witness :
    (⟨⟨[], ("main").toList, ("master").toList⟩, ("id1").toList,
        ("latest").toList⟩ : Version).remote_slug = ("main").toList ∧
    (⟨⟨[], [], ("master").toList⟩, ("id1").toList,
        ("latest").toList⟩ : Version).remote_slug = ("master").toList ∧
    (⟨⟨[], ("main").toList, ("master").toList⟩, ("deadbeef").toList,
        ("stable").toList⟩ : Version).remote_slug = ("stable").toList :=
  ⟨(C7_remote_slug_cases _).1 (by decide) (by decide),
   (C7_remote_slug_cases _).2.1 (by decide) rfl,
   (C7_remote_slug_cases _).2.2 (by decide)⟩

/-- C9: evaluation of the code at the failing input.  For a command that
started at second 0 and ended at second 86405 (25 hours and 5 seconds later),
`run_time` is 5, not 86405: Python's `timedelta.seconds` discards the whole
days of the difference, contradicting the claim (and the docstring "Total
command runtime in seconds") that the result is the difference in whole
seconds for every magnitude. -/
theorem C9_run_time_eval :
    (⟨1, [], none, none, 0, some 0, some 86405⟩ : BuildCommandResult).run_time =
      some 5 ∧
    (⟨1, [], none, none, 0, some 0, none⟩ : BuildCommandResult).run_time =
      none := by
  constructor
  · decide
  · rfl

end RTD
